import Mathlib

/-!
Shallow embedding of `server.py` (OpenHamClock development server).

The server has two request paths: an API proxy under the reserved prefix
`/api/` and static file serving for everything else.  The embedding models
the pure request-handling logic: endpoint-name resolution (line 54),
the endpoint table (lines 32-39), the proxy handler `handle_api`
(lines 52-87), the custom `log_message` (lines 89-93), the routing in
`do_GET` (lines 44-50) and the port selection (line 29).  Side effects
(console prints, the single outbound GET) are recorded as an explicit
event trace; the outcome of the outbound fetch is an oracle parameter.
-/

namespace OpenHamClock

/-- The character list of the reserved prefix `'/api/'`. -/
def apiPat : List Char := ['/', 'a', 'p', 'i', '/']

/-- Models Python `s.replace('/api/', '')` from line 54 of `server.py`,
specialised to the fixed pattern the source passes: scan left to right,
remove each non-overlapping occurrence of `/api/`, and continue scanning
after the removed occurrence (removed regions are not rescanned). -/
def removeApi : List Char → List Char
  | [] => []
  | '/' :: 'a' :: 'p' :: 'i' :: '/' :: rest => removeApi rest
  | c :: rest => c :: removeApi rest

/-- Models Python `s.split('?')[0]` from line 54 of `server.py`: everything
strictly before the first `'?'`, or the whole string when there is none. -/
def takeBeforeQ : List Char → List Char
  | [] => []
  | '?' :: _ => []
  | c :: rest => c :: takeBeforeQ rest

/-- Line 54: `endpoint = self.path.replace('/api/', '').split('?')[0]`. -/
def resolveEndpoint (path : String) : String :=
  String.mk (takeBeforeQ (removeApi path.data))

/-- Decides whether `pat` occurs as a contiguous sublist. -/
def hasSubstr (pat : List Char) : List Char → Bool
  | [] => pat.isPrefixOf []
  | c :: rest => pat.isPrefixOf (c :: rest) || hasSubstr pat rest

/-- The endpoint table of lines 32-39 of `server.py`, in source order. -/
def API_ENDPOINTS : List (String × String) :=
  [ ("solarflux", "https://services.swpc.noaa.gov/json/solar-cycle/observed-solar-flux.json"),
    ("kindex", "https://services.swpc.noaa.gov/json/planetary_k_index_1m.json"),
    ("xray", "https://services.swpc.noaa.gov/json/goes/primary/xrays-7-day.json"),
    ("sunspots", "https://services.swpc.noaa.gov/json/solar-cycle/sunspots.json"),
    ("pota", "https://api.pota.app/spot/activator"),
    ("bands", "https://www.hamqsl.com/solarxml.php") ]

/-- Dictionary access on the endpoint table (`endpoint in API_ENDPOINTS`,
`API_ENDPOINTS[endpoint]`): `some url` when the name is a key. -/
def lookupEndpoint (name : String) : Option String :=
  API_ENDPOINTS.lookup name

/-- Observable side effects of handling one request: console prints and
outbound network attempts, in program order. -/
inductive Event where
  | logLine (line : String)
  | outboundGet (url : String) (userAgent : String)
deriving DecidableEq, Repr

/-- Outcome of the single `urllib.request.urlopen(req, timeout=10)` call of
line 70, as seen by the handler: the response object with its
`Content-Type` header (absent when upstream omits it) and fully read body
bytes, or a raised `urllib.error.URLError` (DNS failure, connection
refused, timeout, also `HTTPError`), or any other raised exception. -/
inductive UpstreamResult where
  | success (contentType? : Option String) (body : List Nat)
  | urlError (msg : String)
  | otherError (msg : String)
deriving DecidableEq, Repr

/-- An HTTP response as assembled by the handler: status line, the headers
the handler itself sets, and the body bytes written to `wfile`. -/
structure HttpResponse where
  status : Nat
  headers : List (String × String)
  body : List Nat
deriving DecidableEq, Repr

/-- Result of running a handler method: either an HTTP response was
written, or an exception escaped before any response bytes were written
(the connection is dropped with no HTTP response). -/
inductive HandlerOutcome where
  | responded (r : HttpResponse)
  | attributeError
deriving DecidableEq, Repr

/-- The first variadic argument Python passes to `log_message`: the
request line (a `str`) when called through `log_request`, the numeric
status code (an `int`) when called through `log_error` from `send_error`. -/
inductive LogArg where
  | str (s : String)
  | int (n : Nat)
deriving DecidableEq, Repr

/-- Lines 89-93: the overridden `log_message(self, format, *args)`.  It
evaluates `args[0].startswith('GET /api/')`; on a `str` it either
suppresses the line (proxy requests) or prints `[<now>] <args[0]>`, while
on an `int` (as passed by `log_error`) the attribute access `.startswith`
raises `AttributeError`, modelled as `Except.error ()`. -/
def log_message (now : String) : LogArg → Except Unit (List Event)
  | LogArg.int _ => Except.error ()
  | LogArg.str s =>
      if "GET /api/".data.isPrefixOf s.data then Except.ok []
      else Except.ok [Event.logLine ("[" ++ now ++ "] " ++ s)]

/-- Models CPython `BaseHTTPRequestHandler.send_error(code, message)`: its
first action is `self.log_error("code %d, message %s", code, message)`,
which forwards to the handler's `log_message` with the integer `code` as
`args[0]`, strictly before `send_response` writes any bytes.  The branch
in which `log_message` returns normally would then write an HTML error
page whose text includes `message`; with the override of lines 89-93 that
branch is unreachable because `.startswith` on an `int` raises. -/
def send_error (now : String) (code : Nat) (message : String) :
    List Event × HandlerOutcome :=
  match log_message now (LogArg.int code) with
  | Except.error _ => ([], HandlerOutcome.attributeError)
  | Except.ok evs =>
      (evs, HandlerOutcome.responded
        { status := code,
          headers := [("Connection", "close"),
                      ("Content-Type", "text/html;charset=utf-8")],
          body := ("Error code: " ++ toString code ++ ", Message: "
                    ++ message).data.map Char.toNat })

/-- The fixed outbound client label of lines 65-68:
`headers={'User-Agent': 'OpenHamClock/1.0'}`. -/
def userAgent : String := "OpenHamClock/1.0"

/-- Lines 52-87: `handle_api`.  `upstream` is the oracle giving the outcome
of the single outbound fetch per URL, `now` the formatted wall-clock time
`%H:%M:%S`, `requestline` the inbound HTTP request line (used by the
access log triggered through `send_response` → `log_request`), `path` the
inbound request target `self.path` (query string included).  Returns the
event trace in program order and the handler outcome. -/
def handle_api (upstream : String → UpstreamResult)
    (now requestline path : String) : List Event × HandlerOutcome :=
  let endpoint := resolveEndpoint path
  match lookupEndpoint endpoint with
  | none => send_error now 404 ("Unknown API endpoint: " ++ endpoint)
  | some url =>
      let fetchLog := Event.logLine ("[" ++ now ++ "] Fetching: " ++ url)
      let attempt := Event.outboundGet url userAgent
      match upstream url with
      | UpstreamResult.success ct? data =>
          let contentType := ct?.getD "application/json"
          match log_message now (LogArg.str requestline) with
          | Except.error _ => ([fetchLog, attempt], HandlerOutcome.attributeError)
          | Except.ok evs =>
              (fetchLog :: attempt :: evs,
               HandlerOutcome.responded
                 { status := 200,
                   headers := [("Content-Type", contentType),
                               ("Access-Control-Allow-Origin", "*"),
                               ("Cache-Control", "max-age=60")],
                   body := data })
      | UpstreamResult.urlError e =>
          let errLog := Event.logLine ("[ERROR] Failed to fetch " ++ endpoint ++ ": " ++ e)
          let tail := send_error now 502 ("Failed to fetch data: " ++ e)
          (fetchLog :: attempt :: errLog :: tail.1, tail.2)
      | UpstreamResult.otherError e =>
          let errLog := Event.logLine ("[ERROR] " ++ e)
          let tail := send_error now 500 e
          (fetchLog :: attempt :: errLog :: tail.1, tail.2)

/-- Result of `do_GET`: the request is either handed to the API proxy or
delegated to `SimpleHTTPRequestHandler.do_GET`, which serves static files
from the process working directory `cwd`. -/
inductive GetResult where
  | api (trace : List Event) (outcome : HandlerOutcome)
  | staticFile (root : String)
deriving DecidableEq, Repr

/-- Line 46: `self.path.startswith('/api/')`. -/
def startsWithApi (path : String) : Bool :=
  apiPat.isPrefixOf path.data

/-- Lines 44-50: `do_GET` routes reserved-prefix paths to `handle_api` and
everything else to the standard static file server rooted at the process
working directory (which `main`, lines 97-99, sets to the directory
containing the script). -/
def do_GET (upstream : String → UpstreamResult)
    (now requestline cwd path : String) : GetResult :=
  if startsWithApi path then
    let r := handle_api upstream now requestline path
    GetResult.api r.1 r.2
  else
    GetResult.staticFile cwd

/-- Lines 97-99 of `main`: `os.chdir(os.path.dirname(os.path.abspath(__file__)))` —
the process working directory becomes the directory containing the
entry-point script. -/
def mainWorkingDir (scriptDir : String) : String := scriptDir

/-- Models Python `int(s)` on an optionally signed decimal digit string
(`none` models the raised `ValueError`; surrounding whitespace and
underscore separators are not modelled). -/
def pyInt (s : String) : Option Int :=
  let digits : List Char → Option Nat := fun l =>
    if l ≠ [] ∧ l.all Char.isDigit then
      some (l.foldl (fun acc c => acc * 10 + (c.toNat - 48)) 0)
    else none
  match s.data with
  | '-' :: rest => (digits rest).map (fun n => -(n : Int))
  | '+' :: rest => (digits rest).map (fun n => (n : Int))
  | l => (digits l).map (fun n => (n : Int))

/-- Line 29: `PORT = int(sys.argv[1]) if len(sys.argv) > 1 else 8080`
(`argv` includes the program name in position 0). -/
def PORT_of : List String → Option Int
  | _ :: arg :: _ => pyInt arg
  | _ => some (8080 : Int)


/-- An inbound request target of the form `/api/<name>` or
`/api/<name>?<query>`. -/
def queryTail : Option String → String
  | none => ""
  | some q => "?" ++ q

/-- Builds the inbound path `/api/<name>` with an optional query string. -/
def apiPath (name : String) (query? : Option String) : String :=
  "/api/" ++ name ++ queryTail query?

/-- Selects the outbound network attempts of a trace. -/
def isOutbound : Event → Bool
  | Event.outboundGet _ _ => true
  | Event.logLine _ => false

/-- The console line printed by line 62 of `server.py` immediately before
the outbound call: `[<now>] Fetching: <url>`. -/
def fetchLine (now url : String) : String :=
  "[" ++ now ++ "] Fetching: " ++ url

lemma removeApi_cons_ne (c : Char) (l : List Char) (hc : c ≠ '/') :
    removeApi (c :: l) = c :: removeApi l := by
  rw [removeApi.eq_def]
  split
  · simp_all
  · simp_all
  · simp_all

lemma takeBeforeQ_cons_ne (c : Char) (l : List Char) (hc : c ≠ '?') :
    takeBeforeQ (c :: l) = c :: takeBeforeQ l := by
  rw [takeBeforeQ.eq_def]
  split
  · simp_all
  · simp_all
  · simp_all

lemma removeApi_leading_api (l : List Char) :
    removeApi (apiPat ++ l) = removeApi l := by
  simp [apiPat, removeApi]

lemma removeApi_append_of_no_slash (l ys : List Char)
    (h : ∀ c ∈ l, c ≠ '/') :
    removeApi (l ++ ys) = l ++ removeApi ys := by
  induction l with
  | nil => simp
  | cons c rest ih =>
      have hc : c ≠ '/' := h c (List.mem_cons_self c rest)
      rw [List.cons_append, removeApi_cons_ne c _ hc,
        ih (fun d hd => h d (List.mem_cons_of_mem c hd)), List.cons_append]

lemma takeBeforeQ_append_q (l ys : List Char) (h : ∀ c ∈ l, c ≠ '?') :
    takeBeforeQ (l ++ '?' :: ys) = l := by
  induction l with
  | nil => simp [takeBeforeQ]
  | cons c rest ih =>
      have hc : c ≠ '?' := h c (List.mem_cons_self c rest)
      rw [List.cons_append, takeBeforeQ_cons_ne c _ hc,
        ih (fun d hd => h d (List.mem_cons_of_mem c hd))]

lemma takeBeforeQ_of_no_q (l : List Char) (h : ∀ c ∈ l, c ≠ '?') :
    takeBeforeQ l = l := by
  induction l with
  | nil => rfl
  | cons c rest ih =>
      have hc : c ≠ '?' := h c (List.mem_cons_self c rest)
      rw [takeBeforeQ_cons_ne c _ hc,
        ih (fun d hd => h d (List.mem_cons_of_mem c hd))]



lemma data_append (s t : String) : (s ++ t).data = s.data ++ t.data := rfl

lemma resolve_apiPath (name : String)
    (hs : ∀ c ∈ name.data, c ≠ '/') (hq : ∀ c ∈ name.data, c ≠ '?')
    (query? : Option String) :
    resolveEndpoint (apiPath name query?) = name := by
  have hrm : removeApi name.data = name.data := by
    have := removeApi_append_of_no_slash name.data [] hs
    simpa [removeApi] using this
  cases query? with
  | none =>
      show String.mk (takeBeforeQ (removeApi (apiPath name none).data)) = name
      have hdata : (apiPath name none).data = apiPat ++ name.data := by
        simp [apiPath, queryTail, data_append, apiPat]
      rw [hdata, removeApi_leading_api, hrm, takeBeforeQ_of_no_q name.data hq]
  | some q =>
      show String.mk (takeBeforeQ (removeApi (apiPath name (some q)).data)) = name
      have hdata : (apiPath name (some q)).data = apiPat ++ (name.data ++ '?' :: q.data) := by
        simp [apiPath, queryTail, data_append, apiPat]
      rw [hdata, removeApi_leading_api,
        removeApi_append_of_no_slash name.data ('?' :: q.data) hs,
        removeApi_cons_ne '?' q.data (by decide),
        takeBeforeQ_append_q name.data _ hq]

lemma lookup_names (name url : String) (h : lookupEndpoint name = some url) :
    name = "solarflux" ∨ name = "kindex" ∨ name = "xray" ∨
    name = "sunspots" ∨ name = "pota" ∨ name = "bands" := by
  simp only [lookupEndpoint, API_ENDPOINTS, List.lookup] at h
  repeat' split at h
  all_goals simp_all only [Option.some.injEq, reduceCtorEq]
  all_goals first
    | exact Or.inl (eq_of_beq (by assumption))
    | exact Or.inr (Or.inl (eq_of_beq (by assumption)))
    | exact Or.inr (Or.inr (Or.inl (eq_of_beq (by assumption))))
    | exact Or.inr (Or.inr (Or.inr (Or.inl (eq_of_beq (by assumption)))))
    | exact Or.inr (Or.inr (Or.inr (Or.inr (Or.inl (eq_of_beq (by assumption))))))
    | exact Or.inr (Or.inr (Or.inr (Or.inr (Or.inr (eq_of_beq (by assumption))))))



lemma hasSubstr_of_starts (pat l : List Char) (h : pat.isPrefixOf l = true) :
    hasSubstr pat l = true := by
  cases l with
  | nil => simpa [hasSubstr] using h
  | cons c rest => simp [hasSubstr, h]

lemma hasSubstr_append (pat pre post : List Char) :
    hasSubstr pat (pre ++ pat ++ post) = true := by
  induction pre with
  | nil =>
      refine hasSubstr_of_starts pat (pat ++ post) ?_
      exact List.isPrefixOf_iff_prefix.mpr (List.prefix_append pat post)
  | cons c pre' ih =>
      simp only [List.cons_append]
      have h2 : hasSubstr pat (pre' ++ (pat ++ post)) = true := by
        simpa [List.append_assoc] using ih
      simp [hasSubstr, h2]

lemma removeApi_cons_no_match (c : Char) (l : List Char)
    (h : apiPat.isPrefixOf (c :: l) = false) :
    removeApi (c :: l) = c :: removeApi l := by
  rw [removeApi.eq_def]
  split
  · simp_all
  · rename_i heq
    rw [show c :: l = '/' :: 'a' :: 'p' :: 'i' :: '/' :: _ from heq] at h
    simp [apiPat, List.isPrefixOf] at h
  · simp_all

lemma removeApi_of_not_hasSubstr (l : List Char)
    (h : hasSubstr apiPat l = false) :
    removeApi l = l := by
  induction l with
  | nil => rfl
  | cons c rest ih =>
      simp only [hasSubstr, Bool.or_eq_false_iff] at h
      rw [removeApi_cons_no_match c rest h.1, ih h.2]



/-- Claim C1 (code evaluated at the failing input): for `GET /api/unknown`
the name resolves to `unknown`, which is not a table key, and no outbound
call is made (the trace is empty); but instead of a 404 response the
handler ends in `AttributeError` (raised by `log_message` on the integer
status code passed through `send_error` → `log_error`), so no HTTP
response at all is delivered. -/
theorem c1_unknown_endpoint_no_response :
    resolveEndpoint "/api/unknown" = "unknown" ∧
    lookupEndpoint "unknown" = none ∧
    handle_api (fun _ => UpstreamResult.otherError "unused") "12:00:00"
        "GET /api/unknown HTTP/1.1" "/api/unknown"
      = ([], HandlerOutcome.attributeError) :=
  ⟨rfl, by decide, by decide⟩

/-- Claim C2 (code evaluated at the failing inputs): on an upstream
`URLError` the handler prints the failure and attempts `send_error(502, …)`,
but `log_message` raises `AttributeError` on the integer status code, so
the client receives no 502 (and no partial body — no response bytes at
all); likewise no 500 is delivered on any other exception. -/
theorem c2_upstream_failure_no_response :
    handle_api (fun _ => UpstreamResult.urlError "Connection refused") "12:00:00"
        "GET /api/pota HTTP/1.1" "/api/pota"
      = ([Event.logLine (fetchLine "12:00:00" "https://api.pota.app/spot/activator"),
          Event.outboundGet "https://api.pota.app/spot/activator" userAgent,
          Event.logLine "[ERROR] Failed to fetch pota: Connection refused"],
         HandlerOutcome.attributeError) ∧
    (handle_api (fun _ => UpstreamResult.otherError "boom") "12:00:00"
        "GET /api/bands HTTP/1.1" "/api/bands").2 = HandlerOutcome.attributeError :=
  ⟨by decide, by decide⟩

/-- Claim C5, counterexample: `replace('/api/', '')` removes every
occurrence of the substring, not only the leading prefix, so the path
`/api/a/api/b` resolves to `ab` instead of `a/api/b`. -/
theorem c5_counterexample :
    resolveEndpoint "/api/a/api/b" = "ab" ∧
    resolveEndpoint "/api/a/api/b" ≠ "a/api/b" :=
  ⟨rfl, by decide⟩

/-- Claim C5 as amended: the lookup key is the path with every occurrence
of the substring `/api/` removed (left to right, non-overlapping) and
everything from the first `?` onward discarded; when the part after the
leading prefix contains no further occurrence of `/api/`, this coincides
with stripping exactly the leading prefix and the query string. -/
theorem c5_resolution_amended (rest : String)
    (h : hasSubstr apiPat rest.data = false) :
    resolveEndpoint ("/api/" ++ rest) = String.mk (takeBeforeQ rest.data) := by
  show String.mk (takeBeforeQ (removeApi ("/api/" ++ rest).data)) = _
  have hdata : ("/api/" ++ rest).data = apiPat ++ rest.data := by
    simp [data_append, apiPat]
  rw [hdata, removeApi_leading_api, removeApi_of_not_hasSubstr rest.data h]

/-- Witness for the amended claim C5 at a concrete path with a query
string. -/
theorem c5_resolution_amended_witness :
    hasSubstr apiPat ("kindex?mode=1" : String).data = false ∧
    resolveEndpoint ("/api/" ++ "kindex?mode=1")
      = String.mk (takeBeforeQ ("kindex?mode=1" : String).data) :=
  ⟨by decide, c5_resolution_amended "kindex?mode=1" (by decide)⟩

/-- Claim C8: the endpoint table has exactly the six keys `solarflux`,
`kindex`, `xray`, `sunspots`, `pota`, `bands`, without duplicates, each
bound to its one fixed upstream URL.  The table is a closed top-level
definition and every operation of the embedding only reads it. -/
theorem c8_endpoint_table :
    API_ENDPOINTS.map Prod.fst
      = ["solarflux", "kindex", "xray", "sunspots", "pota", "bands"] ∧
    (API_ENDPOINTS.map Prod.fst).Nodup ∧
    lookupEndpoint "solarflux"
      = some "https://services.swpc.noaa.gov/json/solar-cycle/observed-solar-flux.json" ∧
    lookupEndpoint "kindex"
      = some "https://services.swpc.noaa.gov/json/planetary_k_index_1m.json" ∧
    lookupEndpoint "xray"
      = some "https://services.swpc.noaa.gov/json/goes/primary/xrays-7-day.json" ∧
    lookupEndpoint "sunspots"
      = some "https://services.swpc.noaa.gov/json/solar-cycle/sunspots.json" ∧
    lookupEndpoint "pota" = some "https://api.pota.app/spot/activator" ∧
    lookupEndpoint "bands" = some "https://www.hamqsl.com/solarxml.php" :=
  ⟨rfl, by decide, by decide, by decide, by decide, by decide, by decide, by decide⟩

/-- Claim C10: the listening port is `int(sys.argv[1])` when a positional
argument is given and 8080 when none is given. -/
theorem c10_port (prog arg : String) (rest : List String) (n : Int)
    (h : pyInt arg = some n) :
    PORT_of [prog] = some 8080 ∧ PORT_of (prog :: arg :: rest) = some n := by
  exact ⟨rfl, by simpa [PORT_of] using h⟩

/-- Witness for claim C10 with argument `9000` and with no argument. -/
theorem c10_port_witness :
    pyInt "9000" = some 9000 ∧
    (PORT_of ["server.py"] = some 8080 ∧
     PORT_of ["server.py", "9000"] = some 9000) :=
  ⟨by decide, c10_port "server.py" "9000" [] 9000 (by decide)⟩



/-- Claim C3: whenever the single outbound fetch succeeds (a response
object is returned and its body read), the client gets status 200, the
upstream body byte for byte, and exactly the three headers the handler
sets: `Content-Type` copied from upstream (defaulting to
`application/json`), `Access-Control-Allow-Origin: *` and
`Cache-Control: max-age=60`. -/
theorem c3_success_relay (upstream : String → UpstreamResult)
    (now requestline path url : String) (ct? : Option String) (data : List Nat)
    (hres : lookupEndpoint (resolveEndpoint path) = some url)
    (hup : upstream url = UpstreamResult.success ct? data) :
    (handle_api upstream now requestline path).2
      = HandlerOutcome.responded
          { status := 200,
            headers := [("Content-Type", ct?.getD "application/json"),
                        ("Access-Control-Allow-Origin", "*"),
                        ("Cache-Control", "max-age=60")],
            body := data } := by
  simp only [handle_api, hres, hup, log_message]
  split
  · rename_i x a heq
    split at heq <;> simp_all
  · rfl

/-- Witness for claim C3: `GET /api/bands` with an upstream that returns
an XML body and its own content type. -/
theorem c3_success_relay_witness :
    (handle_api
        (fun _ => UpstreamResult.success (some "text/xml") [60, 63])
        "12:00:00" "GET /api/bands HTTP/1.1" "/api/bands").2
      = HandlerOutcome.responded
          { status := 200,
            headers := [("Content-Type", "text/xml"),
                        ("Access-Control-Allow-Origin", "*"),
                        ("Cache-Control", "max-age=60")],
            body := [60, 63] } :=
  c3_success_relay _ "12:00:00" "GET /api/bands HTTP/1.1" "/api/bands"
    "https://www.hamqsl.com/solarxml.php" (some "text/xml") [60, 63]
    (by decide) (by decide)

/-- Claim C4: for every key of the endpoint table and every optional query
string, handling `GET /api/<name>[?query]` performs exactly one outbound
GET, addressed to the table's URL for that name (the query string is not
forwarded), with the fixed `User-Agent: OpenHamClock/1.0`, whatever the
outcome of the attempt (no retry). -/
theorem c4_single_outbound (name url : String)
    (h : lookupEndpoint name = some url) (query? : Option String)
    (upstream : String → UpstreamResult) (now requestline : String) :
    ((handle_api upstream now requestline (apiPath name query?)).1.filter isOutbound)
      = [Event.outboundGet url userAgent] := by
  have hres : resolveEndpoint (apiPath name query?) = name := by
    rcases lookup_names name url h with h1 | h1 | h1 | h1 | h1 | h1 <;> subst h1 <;>
      exact resolve_apiPath _ (by decide) (by decide) query?
  simp only [handle_api, hres, h]
  cases hup : upstream url with
  | success ct? data =>
      simp only [log_message]
      split
      · simp [isOutbound]
      · rename_i x evs heq
        split at heq <;> (injection heq with heq; rw [← heq]; simp [isOutbound])
  | urlError e => simp [send_error, log_message, isOutbound]
  | otherError e => simp [send_error, log_message, isOutbound]

/-- Witness for claim C4: `GET /api/kindex?recent=1` against an upstream
that refuses the connection still makes exactly the one attempt, at the
table URL without the query string. -/
theorem c4_single_outbound_witness :
    ((handle_api (fun _ => UpstreamResult.urlError "refused") "12:00:00"
        "GET /api/kindex?recent=1 HTTP/1.1"
        (apiPath "kindex" (some "recent=1"))).1.filter isOutbound)
      = [Event.outboundGet
          "https://services.swpc.noaa.gov/json/planetary_k_index_1m.json"
          userAgent] :=
  c4_single_outbound "kindex"
    "https://services.swpc.noaa.gov/json/planetary_k_index_1m.json"
    (by decide) (some "recent=1") _ "12:00:00" "GET /api/kindex?recent=1 HTTP/1.1"



/-- Claim C6: every error path that goes through `send_error` (unknown
endpoint 404, upstream failure 502, unexpected failure 500, and static
file errors, which use the same `send_error`) first calls the overridden
`log_message` through `log_error` with the integer status code as its
first vararg; `.startswith` on an `int` raises `AttributeError` before any
response bytes are written, so the error response is never delivered. -/
theorem c6_error_response_never_delivered :
    (∀ (now : String) (code : Nat),
        log_message now (LogArg.int code) = Except.error ()) ∧
    (∀ (now : String) (code : Nat) (message : String),
        send_error now code message = ([], HandlerOutcome.attributeError)) ∧
    (∀ (upstream : String → UpstreamResult) (now requestline path : String),
        lookupEndpoint (resolveEndpoint path) = none →
        handle_api upstream now requestline path
          = ([], HandlerOutcome.attributeError)) ∧
    (∀ (upstream : String → UpstreamResult) (now requestline path url e : String),
        lookupEndpoint (resolveEndpoint path) = some url →
        (upstream url = UpstreamResult.urlError e ∨
         upstream url = UpstreamResult.otherError e) →
        (handle_api upstream now requestline path).2
          = HandlerOutcome.attributeError) := by
  refine ⟨fun _ _ => rfl, fun _ _ _ => rfl, ?_, ?_⟩
  · intro upstream now requestline path h
    simp [handle_api, h, send_error, log_message]
  · intro upstream now requestline path url e h hup
    rcases hup with hup | hup <;> simp [handle_api, h, hup, send_error, log_message]

/-- Witness for claim C6: concrete unknown-endpoint and upstream-failure
requests whose error responses are swallowed by the `AttributeError`. -/
theorem c6_error_response_never_delivered_witness :
    handle_api (fun _ => UpstreamResult.otherError "unused") "01:02:03"
        "GET /api/nope HTTP/1.1" "/api/nope"
      = ([], HandlerOutcome.attributeError) :=
  c6_error_response_never_delivered.2.2.1
    (fun _ => UpstreamResult.otherError "unused") "01:02:03"
    "GET /api/nope HTTP/1.1" "/api/nope" (by decide)

/-- Claim C7: an inbound GET goes to the proxy handler exactly when its
path starts with `/api/`; every other path is delegated to the standard
static file server rooted at the process working directory, which `main`
sets to the directory containing the script. -/
theorem c7_routing (upstream : String → UpstreamResult)
    (now requestline scriptDir path : String) :
    (startsWithApi path = true →
      do_GET upstream now requestline (mainWorkingDir scriptDir) path
        = GetResult.api (handle_api upstream now requestline path).1
            (handle_api upstream now requestline path).2) ∧
    (startsWithApi path = false →
      do_GET upstream now requestline (mainWorkingDir scriptDir) path
        = GetResult.staticFile (mainWorkingDir scriptDir)) := by
  constructor <;> intro h <;> simp [do_GET, h]

/-- Witness for claim C7: a static path is served from the script
directory, an `/api/` path is not. -/
theorem c7_routing_witness :
    do_GET (fun _ => UpstreamResult.otherError "unused") "01:02:03"
        "GET /index.html HTTP/1.1" (mainWorkingDir "/srv/openhamclock")
        "/index.html"
      = GetResult.staticFile (mainWorkingDir "/srv/openhamclock") :=
  (c7_routing (fun _ => UpstreamResult.otherError "unused") "01:02:03"
    "GET /index.html HTTP/1.1" "/srv/openhamclock" "/index.html").2 (by decide)

/-- Claim C9: for every request that resolves to a known endpoint, the
trace starts with the console line `[<time>] Fetching: <url>` (which
contains the timestamp and the resolved URL) strictly before the outbound
attempt, and the overridden `log_message` suppresses every generic access
log line whose request line starts with `GET /api/`, so a proxy request is
logged at most once. -/
theorem c9_fetch_logged_before_call (upstream : String → UpstreamResult)
    (now requestline path url : String)
    (h : lookupEndpoint (resolveEndpoint path) = some url) :
    (∃ rest, (handle_api upstream now requestline path).1
        = Event.logLine (fetchLine now url)
            :: Event.outboundGet url userAgent :: rest) ∧
    hasSubstr now.data (fetchLine now url).data = true ∧
    hasSubstr url.data (fetchLine now url).data = true ∧
    (∀ s : String, "GET /api/".data.isPrefixOf s.data = true →
        log_message now (LogArg.str s) = Except.ok []) := by
  refine ⟨?_, ?_, ?_, fun s hs => by simp [log_message, hs]⟩
  · simp only [handle_api, h, fetchLine]
    cases hup : upstream url with
    | success ct? data =>
        simp only [log_message]
        split
        · exact ⟨[], rfl⟩
        · exact ⟨_, rfl⟩
    | urlError e => exact ⟨_, rfl⟩
    | otherError e => exact ⟨_, rfl⟩
  · have h1 := hasSubstr_append now.data ("[" : String).data
      (("] Fetching: " : String).data ++ url.data)
    simpa [fetchLine, data_append, List.append_assoc] using h1
  · have h2 := hasSubstr_append url.data
      (("[" : String).data ++ now.data ++ ("] Fetching: " : String).data) []
    simpa [fetchLine, data_append, List.append_assoc] using h2



/-- Witness for claim C9 at `GET /api/xray` with a successful upstream. -/
theorem c9_fetch_logged_before_call_witness :
    (∃ rest,
      (handle_api (fun _ => UpstreamResult.success none [7]) "09:10:11"
          "GET /api/xray HTTP/1.1" "/api/xray").1
        = Event.logLine (fetchLine "09:10:11"
              "https://services.swpc.noaa.gov/json/goes/primary/xrays-7-day.json")
            :: Event.outboundGet
                "https://services.swpc.noaa.gov/json/goes/primary/xrays-7-day.json"
                userAgent :: rest) ∧
    hasSubstr ("09:10:11" : String).data
      (fetchLine "09:10:11"
        "https://services.swpc.noaa.gov/json/goes/primary/xrays-7-day.json").data = true ∧
    hasSubstr ("https://services.swpc.noaa.gov/json/goes/primary/xrays-7-day.json" : String).data
      (fetchLine "09:10:11"
        "https://services.swpc.noaa.gov/json/goes/primary/xrays-7-day.json").data = true ∧
    (∀ s : String, "GET /api/".data.isPrefixOf s.data = true →
        log_message "09:10:11" (LogArg.str s) = Except.ok []) :=
  c9_fetch_logged_before_call (fun _ => UpstreamResult.success none [7])
    "09:10:11" "GET /api/xray HTTP/1.1" "/api/xray"
    "https://services.swpc.noaa.gov/json/goes/primary/xrays-7-day.json"
    (by decide)


end OpenHamClock
